import Mathlib

/-!
# Verification of the mazda3bk-bt steering-wheel button controller

Shallow embedding of the two Arduino sketch variants
(`mazda3bk-bt.ino` and its unnamed sibling): a rolling-average voltage
filter feeding three per-band debounce/latch state machines.

Modelling choices:
* C `float` voltage values and thresholds are embedded as exact
  rationals (`ℚ`); the source's decimal literals are exact in this model.
* `unsigned long` (32-bit on AVR) timestamps are embedded as `Nat`
  with the wrapping subtraction `millis() - startTime` made explicit
  as subtraction modulo `2^32`.
* `digitalWrite` is embedded as updates to boolean pin-level fields of
  the system state (`true` = HIGH).
* `delay(...)` calls inside a band check are recorded as a returned
  stall duration in milliseconds.
-/

namespace Mazda

/-- Modulus of AVR `unsigned long` arithmetic. -/
def M32 : Nat := 4294967296

/-- Wrapping `unsigned long` subtraction modulo `2^32`, as performed by
`millis() - startTimeN` in the source. -/
def usub32 (a b : Nat) : Nat := (a % M32 + M32 - b % M32) % M32

theorem usub32_eq_sub (a b : Nat) (hle : b ≤ a) (hlt : a - b < M32) :
    usub32 a b = a - b := by
  unfold usub32 M32 at *
  omega

/-! ## Variant 1 (`src/mazda3bk-bt.ino`) -/

namespace V1

/-- Constant `VOLTAGE_LOW_1 = 3.70`. -/
def VOLTAGE_LOW_1 : ℚ := 37/10
/-- Constant `VOLTAGE_HIGH_1 = 3.90`. -/
def VOLTAGE_HIGH_1 : ℚ := 39/10
/-- Constant `VOLTAGE_LOW_2 = 2.30`. -/
def VOLTAGE_LOW_2 : ℚ := 23/10
/-- Constant `VOLTAGE_HIGH_2 = 2.50`. -/
def VOLTAGE_HIGH_2 : ℚ := 25/10
/-- Constant `VOLTAGE_LOW_3 = 1.50`. -/
def VOLTAGE_LOW_3 : ℚ := 15/10
/-- Constant `VOLTAGE_HIGH_3 = 1.80`. -/
def VOLTAGE_HIGH_3 : ℚ := 18/10

/-- Constant `DURATION_THRESHOLD_1 = 300` (ms). -/
def DURATION_THRESHOLD_1 : Nat := 300
/-- Constant `DURATION_THRESHOLD_2 = 3000` (ms). -/
def DURATION_THRESHOLD_2 : Nat := 3000

/-- Constant `numReadings = 10`. -/
def numReadings : Nat := 10

/-- The mutable state of variant 1: per-band flags and timers together
with the levels of the four output pins (`true` = HIGH). -/
structure St where
  condition1Active : Bool
  condition2Active : Bool
  condition3Active : Bool
  startTime1 : Nat
  startTime2 : Nat
  startTime3 : Nat
  mutePin : Bool
  resetPin : Bool
  prevPin : Bool
  nextPin : Bool
  deriving Repr, DecidableEq

/-- State at entry to `loop()` for a band that has never been in-band:
flags false, timers 0, outputs LOW (the boot pulse on RESET_PIN has
ended with `digitalWrite(RESET_PIN, LOW)`). -/
def idleSt : St :=
  ⟨false, false, false, 0, 0, 0, false, false, false, false⟩

/-- Source `checkCondition1()`: dual-threshold MUTE/RESET band 3.70–3.90 V. -/
def checkCondition1 (fv : ℚ) (now : Nat) (s : St) : St :=
  if VOLTAGE_LOW_1 ≤ fv ∧ fv ≤ VOLTAGE_HIGH_1 then
    if s.condition1Active then s
    else if s.startTime1 = 0 then
      { s with startTime1 := now }
    else if DURATION_THRESHOLD_1 ≤ usub32 now s.startTime1 then
      { s with condition1Active := true, mutePin := true }
    else if DURATION_THRESHOLD_2 ≤ usub32 now s.startTime1 then
      { s with condition1Active := true, resetPin := true }
    else s
  else
    { s with
      mutePin := if s.condition1Active then false else s.mutePin,
      resetPin := if s.condition1Active then false else s.resetPin,
      condition1Active := false,
      startTime1 := 0 }

/-- Source `checkCondition2()`: PREV band 2.30–2.50 V, hold 300 ms. -/
def checkCondition2 (fv : ℚ) (now : Nat) (s : St) : St :=
  if VOLTAGE_LOW_2 ≤ fv ∧ fv ≤ VOLTAGE_HIGH_2 then
    if s.condition2Active then s
    else if s.startTime2 = 0 then
      { s with startTime2 := now }
    else if DURATION_THRESHOLD_1 ≤ usub32 now s.startTime2 then
      { s with condition2Active := true, prevPin := true }
    else s
  else
    { s with
      prevPin := if s.condition2Active then false else s.prevPin,
      condition2Active := false,
      startTime2 := 0 }

/-- Source `checkCondition3()`: NEXT band 1.50–1.80 V, hold 300 ms. -/
def checkCondition3 (fv : ℚ) (now : Nat) (s : St) : St :=
  if VOLTAGE_LOW_3 ≤ fv ∧ fv ≤ VOLTAGE_HIGH_3 then
    if s.condition3Active then s
    else if s.startTime3 = 0 then
      { s with startTime3 := now }
    else if DURATION_THRESHOLD_1 ≤ usub32 now s.startTime3 then
      { s with condition3Active := true, nextPin := true }
    else s
  else
    { s with
      nextPin := if s.condition3Active then false else s.nextPin,
      condition3Active := false,
      startTime3 := 0 }

/-- One classification pass of `loop()`: the three band checks in source
order, at filtered voltage `fv` and time `now`. -/
def tick (fv : ℚ) (now : Nat) (s : St) : St :=
  checkCondition3 fv now (checkCondition2 fv now (checkCondition1 fv now s))

/-- Run the classifier over a list of `(now, filteredVoltage)` ticks. -/
def runTicks (ticks : List (Nat × ℚ)) (s : St) : St :=
  ticks.foldl (fun s p => tick p.2 p.1 s) s

end V1

/-! ## Variant 2 (`src/unnamed/part_000`) -/

namespace V2

/-- Constant `VOLTAGE_LOW_1 = 3.85`. -/
def VOLTAGE_LOW_1 : ℚ := 385/100
/-- Constant `VOLTAGE_HIGH_1 = 4.05`. -/
def VOLTAGE_HIGH_1 : ℚ := 405/100
/-- Constant `VOLTAGE_LOW_2 = 2.52`. -/
def VOLTAGE_LOW_2 : ℚ := 252/100
/-- Constant `VOLTAGE_HIGH_2 = 2.72`. -/
def VOLTAGE_HIGH_2 : ℚ := 272/100
/-- Constant `VOLTAGE_LOW_3 = 1.78`. -/
def VOLTAGE_LOW_3 : ℚ := 178/100
/-- Constant `VOLTAGE_HIGH_3 = 1.98`. -/
def VOLTAGE_HIGH_3 : ℚ := 198/100

/-- Constant `DURATION_THRESHOLD_1 = 3000` (ms). -/
def DURATION_THRESHOLD_1 : Nat := 3000
/-- Constant `DURATION_THRESHOLD_2 = 300` (ms). -/
def DURATION_THRESHOLD_2 : Nat := 300

/-- Constant `NUM_READINGS = 5`. -/
def NUM_READINGS : Nat := 5

/-- Mutable state of variant 2.  `POWER_EN_PIN` is active-LOW here:
setup leaves it HIGH and latching drives it LOW. -/
structure St where
  condition1Active : Bool
  condition2Active : Bool
  condition3Active : Bool
  startTime1 : Nat
  startTime2 : Nat
  startTime3 : Nat
  powerEnPin : Bool
  prevPin : Bool
  nextPin : Bool
  deriving Repr, DecidableEq

/-- State at entry to `loop()`: flags false, timers 0, `POWER_EN_PIN`
HIGH after the boot pulse, other outputs LOW. -/
def idleSt : St := ⟨false, false, false, 0, 0, 0, true, false, false⟩

/-- Source `checkCondition1()`: POWER_EN band 3.85–4.05 V, hold 3000 ms.
Besides the successor state, returns the number of milliseconds the
tick stalls in `delay(...)` inside this check (0 when no delay runs). -/
def checkCondition1 (fv : ℚ) (now : Nat) (s : St) : St × Nat :=
  if VOLTAGE_LOW_1 ≤ fv ∧ fv ≤ VOLTAGE_HIGH_1 then
    if s.condition1Active then (s, 0)
    else if s.startTime1 = 0 then
      ({ s with startTime1 := now }, 0)
    else if DURATION_THRESHOLD_1 ≤ usub32 now s.startTime1 then
      ({ s with condition1Active := true, powerEnPin := false },
       DURATION_THRESHOLD_2)
    else (s, 0)
  else
    ({ s with
       powerEnPin := if s.condition1Active then true else s.powerEnPin,
       condition1Active := false,
       startTime1 := 0 }, 0)

/-- Source `checkCondition2()`: PREV band 2.52–2.72 V, hold 300 ms, with a
300 ms blocking delay after latching. -/
def checkCondition2 (fv : ℚ) (now : Nat) (s : St) : St × Nat :=
  if VOLTAGE_LOW_2 ≤ fv ∧ fv ≤ VOLTAGE_HIGH_2 then
    if s.condition2Active then (s, 0)
    else if s.startTime2 = 0 then
      ({ s with startTime2 := now }, 0)
    else if DURATION_THRESHOLD_2 ≤ usub32 now s.startTime2 then
      ({ s with condition2Active := true, prevPin := true },
       DURATION_THRESHOLD_2)
    else (s, 0)
  else
    ({ s with
       prevPin := if s.condition2Active then false else s.prevPin,
       condition2Active := false,
       startTime2 := 0 }, 0)

/-- Source `checkCondition3()`: NEXT band 1.78–1.98 V, hold 300 ms, with a
300 ms blocking delay after latching. -/
def checkCondition3 (fv : ℚ) (now : Nat) (s : St) : St × Nat :=
  if VOLTAGE_LOW_3 ≤ fv ∧ fv ≤ VOLTAGE_HIGH_3 then
    if s.condition3Active then (s, 0)
    else if s.startTime3 = 0 then
      ({ s with startTime3 := now }, 0)
    else if DURATION_THRESHOLD_2 ≤ usub32 now s.startTime3 then
      ({ s with condition3Active := true, nextPin := true },
       DURATION_THRESHOLD_2)
    else (s, 0)
  else
    ({ s with
       nextPin := if s.condition3Active then false else s.nextPin,
       condition3Active := false,
       startTime3 := 0 }, 0)

/-- One classification pass of `loop()`: the three band checks in
source order (delay amounts discarded; they stall time but change no
state). -/
def tick (fv : ℚ) (now : Nat) (s : St) : St :=
  (checkCondition3 fv now
    (checkCondition2 fv now (checkCondition1 fv now s).1).1).1

/-- Run the variant-2 classifier over `(now, filteredVoltage)` ticks. -/
def runTicks (ticks : List (Nat × ℚ)) (s : St) : St :=
  ticks.foldl (fun s p => tick p.2 p.1 s) s

end V2

/-! ## Voltage filter (`readVoltage()`, both variants)

Both variants share the same filter code, differing only in the buffer
capacity constant (`numReadings = 10` vs `NUM_READINGS = 5`), so it is
embedded once, parameterized by the capacity `N`. -/

/-- State of the rolling-average filter: the `readings[]` array and the
circular write index `readIndex`. -/
structure FilterSt where
  readings : List ℚ
  readIndex : Nat
  deriving Repr, DecidableEq

/-- The buffer as initialized by `setup()`: all `N` slots zero,
`readIndex = 0`. -/
def initFilter (N : Nat) : FilterSt := ⟨List.replicate N 0, 0⟩

/-- The voltage stored for a raw ADC count:
`(float)(analogRead(pin) * 5.0) / 1024`. -/
def rawToVolt (raw : Nat) : ℚ := (raw * 5 : ℚ) / 1024

/-- Source `readVoltage()`: store the converted reading at `readIndex`, advance
the index modulo `N`, and return the new filter state together with the
recomputed `filteredVoltage` (mean of all `N` slots). -/
def readVoltage (N : Nat) (raw : Nat) (f : FilterSt) : FilterSt × ℚ :=
  let rs := f.readings.set f.readIndex (rawToVolt raw)
  (⟨rs, (f.readIndex + 1) % N⟩, rs.sum / (N : ℚ))

/-- Feed the constant raw reading `raw` for `k` ticks starting from the
zero-initialized buffer; returns the filter state and the filtered
voltage reported at the `k`-th tick (0 before any tick). -/
def runFilter (N raw : Nat) : Nat → FilterSt × ℚ
  | 0 => (initFilter N, 0)
  | k + 1 => readVoltage N raw (runFilter N raw k).1

/-- Modelled from the spec: the conversion formula as the claim states
it, `reading * referenceVoltage / ADC_MAX` with `ADC_MAX` "the maximum
value the analog-to-digital converter can return", which for the
10-bit AVR ADC (`analogRead` range 0–1023) is 1023.  To be compared
with `rawToVolt`, the conversion the source performs. -/
def specRawToVolt (raw : Nat) : ℚ := (raw * 5 : ℚ) / 1023

/-! ## Tick traces for the temporal claims -/

namespace V1

/-- Run band 1 (`checkCondition1`) alone over ticks at times
`times 0, times 1, ...` with a constant filtered voltage `fv`, starting
from the idle state; `run1 fv times k` is the state after the first
`k` ticks. -/
def run1 (fv : ℚ) (times : Nat → Nat) : Nat → St
  | 0 => idleSt
  | k + 1 => checkCondition1 fv (times k) (run1 fv times k)

/-- Run band 3 (`checkCondition3`) alone over ticks at times
`t0, t0 + d, t0 + 2*d, ...` with a constant filtered voltage `fv`,
starting from the idle state. -/
def run3 (fv : ℚ) (t0 d : Nat) : Nat → St
  | 0 => idleSt
  | k + 1 => checkCondition3 fv (t0 + k * d) (run3 fv t0 d k)

/-- The level of `PREV_PIN` before and after each tick of a run of
band 2 (`checkCondition2`) over the `(now, filteredVoltage)` ticks,
starting in state `s`: a list of `ticks.length + 1` samples. -/
def pinTrace2 (s : St) : List (Nat × ℚ) → List Bool
  | [] => [s.prevPin]
  | p :: rest => s.prevPin :: pinTrace2 (checkCondition2 p.2 p.1 s) rest

end V1

/-- Number of inactive→active (LOW→HIGH) transitions in a sampled pin
level sequence. -/
def edgesUp : List Bool → Nat
  | [] => 0
  | [_] => 0
  | a :: b :: rest => (if a = false ∧ b = true then 1 else 0) + edgesUp (b :: rest)

/-- Number of active→inactive (HIGH→LOW) transitions in a sampled pin
level sequence. -/
def edgesDown : List Bool → Nat
  | [] => 0
  | [_] => 0
  | a :: b :: rest => (if a = true ∧ b = false then 1 else 0) + edgesDown (b :: rest)

/-- The level of `PREV_PIN` before and after each tick of a run of
variant 2's band 2 (`checkCondition2` of `part_000`) over the
`(now, filteredVoltage)` ticks, starting in state `s`: a list of
`ticks.length + 1` samples. -/
def pinTrace2V2 (s : V2.St) : List (Nat × ℚ) → List Bool
  | [] => [s.prevPin]
  | p :: rest => s.prevPin :: pinTrace2V2 (V2.checkCondition2 p.2 p.1 s).1 rest

/-! ## Branch lemmas for the band checks -/

theorem cc1_in_active {fv : ℚ} {now : Nat} {s : V1.St}
    (hin : V1.VOLTAGE_LOW_1 ≤ fv ∧ fv ≤ V1.VOLTAGE_HIGH_1)
    (ha : s.condition1Active = true) :
    V1.checkCondition1 fv now s = s := by
  simp [V1.checkCondition1, hin.1, hin.2, ha]

theorem cc1_in_entry {fv : ℚ} {now : Nat} {s : V1.St}
    (hin : V1.VOLTAGE_LOW_1 ≤ fv ∧ fv ≤ V1.VOLTAGE_HIGH_1)
    (ha : s.condition1Active = false) (h0 : s.startTime1 = 0) :
    V1.checkCondition1 fv now s = { s with startTime1 := now } := by
  simp [V1.checkCondition1, hin.1, hin.2, ha, h0]

theorem cc1_in_latch {fv : ℚ} {now : Nat} {s : V1.St}
    (hin : V1.VOLTAGE_LOW_1 ≤ fv ∧ fv ≤ V1.VOLTAGE_HIGH_1)
    (ha : s.condition1Active = false) (h0 : s.startTime1 ≠ 0)
    (hth : V1.DURATION_THRESHOLD_1 ≤ usub32 now s.startTime1) :
    V1.checkCondition1 fv now s =
      { s with condition1Active := true, mutePin := true } := by
  simp [V1.checkCondition1, hin.1, hin.2, ha, h0, hth]

theorem cc1_in_wait {fv : ℚ} {now : Nat} {s : V1.St}
    (hin : V1.VOLTAGE_LOW_1 ≤ fv ∧ fv ≤ V1.VOLTAGE_HIGH_1)
    (ha : s.condition1Active = false) (h0 : s.startTime1 ≠ 0)
    (hlt : usub32 now s.startTime1 < 300) :
    V1.checkCondition1 fv now s = s := by
  have h1 : ¬ (V1.DURATION_THRESHOLD_1 ≤ usub32 now s.startTime1) := by
    simp only [V1.DURATION_THRESHOLD_1]; omega
  have h2 : ¬ (V1.DURATION_THRESHOLD_2 ≤ usub32 now s.startTime1) := by
    simp only [V1.DURATION_THRESHOLD_2]; omega
  simp [V1.checkCondition1, hin.1, hin.2, ha, h0, h1, h2]

theorem cc1_out {fv : ℚ} {now : Nat} {s : V1.St}
    (hout : ¬ (V1.VOLTAGE_LOW_1 ≤ fv ∧ fv ≤ V1.VOLTAGE_HIGH_1)) :
    V1.checkCondition1 fv now s =
      { s with
        mutePin := if s.condition1Active then false else s.mutePin,
        resetPin := if s.condition1Active then false else s.resetPin,
        condition1Active := false,
        startTime1 := 0 } := by
  simp only [V1.checkCondition1, if_neg hout]

/-- C4 — After any tick at which the filtered voltage is outside the
band, the band state is `{active = false, entryTimestamp = 0}`, and if
the band was Latched its outputs (MUTE_PIN and RESET_PIN for band 1)
are driven LOW on that tick, whatever the previous state was; moreover
an in-band tick never changes the state of a Latched band, so leaving
the band is the only exit from Latched. -/
theorem band1_exit_resets (fv fv2 : ℚ) (now now2 : Nat) (s t : V1.St)
    (hout : ¬ (V1.VOLTAGE_LOW_1 ≤ fv ∧ fv ≤ V1.VOLTAGE_HIGH_1))
    (hin : V1.VOLTAGE_LOW_1 ≤ fv2 ∧ fv2 ≤ V1.VOLTAGE_HIGH_1)
    (hact : t.condition1Active = true) :
    (V1.checkCondition1 fv now s).condition1Active = false ∧
    (V1.checkCondition1 fv now s).startTime1 = 0 ∧
    (s.condition1Active = true →
      (V1.checkCondition1 fv now s).mutePin = false ∧
      (V1.checkCondition1 fv now s).resetPin = false) ∧
    V1.checkCondition1 fv2 now2 t = t := by
  rw [cc1_out hout, cc1_in_active hin hact]
  refine ⟨rfl, rfl, fun h => ?_, rfl⟩
  simp [h]

/-- Witness for `band1_exit_resets` at `fv = 5` (out of band),
`fv2 = 3.8` (in band) and a latched state. -/
theorem band1_exit_resets_witness :
    (¬ (V1.VOLTAGE_LOW_1 ≤ (5 : ℚ) ∧ (5 : ℚ) ≤ V1.VOLTAGE_HIGH_1) ∧
     (V1.VOLTAGE_LOW_1 ≤ (19/5 : ℚ) ∧ (19/5 : ℚ) ≤ V1.VOLTAGE_HIGH_1) ∧
     (V1.St.mk true false false 400 0 0 true false false false).condition1Active = true) ∧
    ((V1.checkCondition1 5 100 (V1.St.mk true false false 400 0 0 true false false false)).condition1Active = false ∧
     (V1.checkCondition1 5 100 (V1.St.mk true false false 400 0 0 true false false false)).startTime1 = 0 ∧
     ((V1.St.mk true false false 400 0 0 true false false false).condition1Active = true →
       (V1.checkCondition1 5 100 (V1.St.mk true false false 400 0 0 true false false false)).mutePin = false ∧
       (V1.checkCondition1 5 100 (V1.St.mk true false false 400 0 0 true false false false)).resetPin = false) ∧
     V1.checkCondition1 (19/5) 200 (V1.St.mk true false false 400 0 0 true false false false) =
       V1.St.mk true false false 400 0 0 true false false false) :=
  ⟨⟨by norm_num [V1.VOLTAGE_LOW_1, V1.VOLTAGE_HIGH_1],
    by norm_num [V1.VOLTAGE_LOW_1, V1.VOLTAGE_HIGH_1], rfl⟩,
   band1_exit_resets 5 (19/5) 100 200
     (V1.St.mk true false false 400 0 0 true false false false)
     (V1.St.mk true false false 400 0 0 true false false false)
     (by norm_num [V1.VOLTAGE_LOW_1, V1.VOLTAGE_HIGH_1])
     (by norm_num [V1.VOLTAGE_LOW_1, V1.VOLTAGE_HIGH_1]) rfl⟩

/-- C7 — In the second variant, whenever a band check performs a
Pending → Latched transition (its activity flag goes from false to
true), it stalls the polling loop for exactly 300 ms
(`delay(DURATION_THRESHOLD_2)`) immediately after driving the output
active; this holds for all three bands (POWER_EN, PREV, NEXT). -/
theorem v2_latch_delay (fv : ℚ) (now : Nat) (s : V2.St) :
    (s.condition1Active = false →
      (V2.checkCondition1 fv now s).1.condition1Active = true →
      (V2.checkCondition1 fv now s).2 = 300) ∧
    (s.condition2Active = false →
      (V2.checkCondition2 fv now s).1.condition2Active = true →
      (V2.checkCondition2 fv now s).2 = 300) ∧
    (s.condition3Active = false →
      (V2.checkCondition3 fv now s).1.condition3Active = true →
      (V2.checkCondition3 fv now s).2 = 300) := by
  refine ⟨fun h1 h2 => ?_, fun h1 h2 => ?_, fun h1 h2 => ?_⟩
  · unfold V2.checkCondition1 at h2 ⊢
    split_ifs at h2 ⊢ <;> simp_all [V2.DURATION_THRESHOLD_2]
  · unfold V2.checkCondition2 at h2 ⊢
    split_ifs at h2 ⊢ <;> simp_all [V2.DURATION_THRESHOLD_2]
  · unfold V2.checkCondition3 at h2 ⊢
    split_ifs at h2 ⊢ <;> simp_all [V2.DURATION_THRESHOLD_2]

/-- Witness for `v2_latch_delay`: the POWER_EN band latches at
`fv = 4` V, 3000 ms after an entry recorded at millis = 100, and the
tick stalls 300 ms. -/
theorem v2_latch_delay_witness :
    ((V2.St.mk false false false 100 0 0 true false false).condition1Active = false ∧
     (V2.checkCondition1 4 3100 (V2.St.mk false false false 100 0 0 true false false)).1.condition1Active = true) ∧
    (V2.checkCondition1 4 3100 (V2.St.mk false false false 100 0 0 true false false)).2 = 300 :=
  ⟨⟨rfl,
    by norm_num [V2.checkCondition1, V2.VOLTAGE_LOW_1, V2.VOLTAGE_HIGH_1,
      V2.DURATION_THRESHOLD_1, usub32, M32]⟩,
   (v2_latch_delay 4 3100 (V2.St.mk false false false 100 0 0 true false false)).1 rfl
     (by norm_num [V2.checkCondition1, V2.VOLTAGE_LOW_1, V2.VOLTAGE_HIGH_1,
       V2.DURATION_THRESHOLD_1, usub32, M32])⟩

theorem v2cc1_in_entry {fv : ℚ} {now : Nat} {s : V2.St}
    (hin : V2.VOLTAGE_LOW_1 ≤ fv ∧ fv ≤ V2.VOLTAGE_HIGH_1)
    (ha : s.condition1Active = false) (h0 : s.startTime1 = 0) :
    V2.checkCondition1 fv now s = ({ s with startTime1 := now }, 0) := by
  simp [V2.checkCondition1, hin.1, hin.2, ha, h0]

theorem v2cc1_in_wait {fv : ℚ} {now : Nat} {s : V2.St}
    (hin : V2.VOLTAGE_LOW_1 ≤ fv ∧ fv ≤ V2.VOLTAGE_HIGH_1)
    (ha : s.condition1Active = false) (h0 : s.startTime1 ≠ 0)
    (hlt : ¬ (V2.DURATION_THRESHOLD_1 ≤ usub32 now s.startTime1)) :
    V2.checkCondition1 fv now s = (s, 0) := by
  simp [V2.checkCondition1, hin.1, hin.2, ha, h0, hlt]

/-- C10 — In both variants, if `millis()` reads exactly 0 on the first
in-band tick of band 1, the recorded entry time coincides with the
not-entered sentinel 0, so the state after that tick is unchanged
(still Idle); the next in-band tick at time `t > 0` records the entry
again (`startTime1 = t`), and the hold countdown starts at `t`, later
than the actual band entry: a probe tick at `t'` with `t' ≥ T` (the
band's hold duration after the true entry at time 0) but `t' < t + T`
still does not drive the output — MUTE_PIN stays LOW in variant 1
(`T = 300`), and the active-LOW POWER_EN_PIN stays HIGH in variant 2
(`T = 3000`). -/
theorem millis_zero_sentinel (fv fv2 : ℚ) (t tp tq : Nat)
    (hin : V1.VOLTAGE_LOW_1 ≤ fv ∧ fv ≤ V1.VOLTAGE_HIGH_1)
    (hin2 : V2.VOLTAGE_LOW_1 ≤ fv2 ∧ fv2 ≤ V2.VOLTAGE_HIGH_1)
    (ht : 0 < t) (hle : t ≤ tp) (hlt : tp < t + 300) (hcd : 300 ≤ tp)
    (hle2 : t ≤ tq) (hlt2 : tq < t + 3000) (hcd2 : 3000 ≤ tq) :
    (V1.checkCondition1 fv 0 V1.idleSt = V1.idleSt ∧
     (V1.checkCondition1 fv t (V1.checkCondition1 fv 0 V1.idleSt)).startTime1 = t ∧
     (V1.checkCondition1 fv tp
       (V1.checkCondition1 fv t (V1.checkCondition1 fv 0 V1.idleSt))).mutePin = false) ∧
    ((V2.checkCondition1 fv2 0 V2.idleSt).1 = V2.idleSt ∧
     (V2.checkCondition1 fv2 t
       (V2.checkCondition1 fv2 0 V2.idleSt).1).1.startTime1 = t ∧
     (V2.checkCondition1 fv2 tq
       (V2.checkCondition1 fv2 t
         (V2.checkCondition1 fv2 0 V2.idleSt).1).1).1.condition1Active = false ∧
     (V2.checkCondition1 fv2 tq
       (V2.checkCondition1 fv2 t
         (V2.checkCondition1 fv2 0 V2.idleSt).1).1).1.powerEnPin = true) := by
  have h0 : V1.checkCondition1 fv 0 V1.idleSt = V1.idleSt := by
    rw [cc1_in_entry hin rfl rfl]; simp [V1.idleSt]
  have h1 : V1.checkCondition1 fv t V1.idleSt = { V1.idleSt with startTime1 := t } :=
    cc1_in_entry hin rfl rfl
  have h2 : V1.checkCondition1 fv tp { V1.idleSt with startTime1 := t } =
      { V1.idleSt with startTime1 := t } := by
    refine cc1_in_wait hin rfl (by simpa [V1.idleSt] using ht.ne') ?_
    have : usub32 tp t = tp - t := usub32_eq_sub tp t hle (by unfold M32; omega)
    simp only [V1.idleSt] at *
    omega
  have g0 : (V2.checkCondition1 fv2 0 V2.idleSt).1 = V2.idleSt := by
    rw [v2cc1_in_entry hin2 rfl rfl]; simp [V2.idleSt]
  have g1 : (V2.checkCondition1 fv2 t
      (V2.checkCondition1 fv2 0 V2.idleSt).1).1 = { V2.idleSt with startTime1 := t } := by
    rw [g0, v2cc1_in_entry hin2 rfl rfl]
  have g2 : (V2.checkCondition1 fv2 tq
      (V2.checkCondition1 fv2 t
        (V2.checkCondition1 fv2 0 V2.idleSt).1).1).1 = { V2.idleSt with startTime1 := t } := by
    rw [g1, v2cc1_in_wait hin2 rfl (by simpa [V2.idleSt] using ht.ne') ?_]
    have hs : usub32 tq t = tq - t := usub32_eq_sub tq t hle2 (by unfold M32; omega)
    simp only [V2.idleSt, V2.DURATION_THRESHOLD_1] at *
    omega
  rw [h0, h1, h2, g2, g1]
  exact ⟨⟨rfl, rfl, rfl⟩, g0, rfl, rfl, rfl⟩

/-- Witness for `millis_zero_sentinel` at `fv = 3.8` (variant 1) and
`fv2 = 4` (variant 2), second tick at `t = 20`, probe ticks at
`t' = 310 ≥ 300` but `310 < 320`, and `t'' = 3010 ≥ 3000` but
`3010 < 3020`. -/
theorem millis_zero_sentinel_witness :
    ((V1.VOLTAGE_LOW_1 ≤ (19/5 : ℚ) ∧ (19/5 : ℚ) ≤ V1.VOLTAGE_HIGH_1) ∧
     (V2.VOLTAGE_LOW_1 ≤ (4 : ℚ) ∧ (4 : ℚ) ≤ V2.VOLTAGE_HIGH_1) ∧
      0 < 20 ∧ 20 ≤ 310 ∧ 310 < 20 + 300 ∧ 300 ≤ 310 ∧
      20 ≤ 3010 ∧ 3010 < 20 + 3000 ∧ 3000 ≤ 3010) ∧
    ((V1.checkCondition1 (19/5) 0 V1.idleSt = V1.idleSt ∧
      (V1.checkCondition1 (19/5) 20 (V1.checkCondition1 (19/5) 0 V1.idleSt)).startTime1 = 20 ∧
      (V1.checkCondition1 (19/5) 310
        (V1.checkCondition1 (19/5) 20 (V1.checkCondition1 (19/5) 0 V1.idleSt))).mutePin = false) ∧
     ((V2.checkCondition1 4 0 V2.idleSt).1 = V2.idleSt ∧
      (V2.checkCondition1 4 20
        (V2.checkCondition1 4 0 V2.idleSt).1).1.startTime1 = 20 ∧
      (V2.checkCondition1 4 3010
        (V2.checkCondition1 4 20
          (V2.checkCondition1 4 0 V2.idleSt).1).1).1.condition1Active = false ∧
      (V2.checkCondition1 4 3010
        (V2.checkCondition1 4 20
          (V2.checkCondition1 4 0 V2.idleSt).1).1).1.powerEnPin = true)) :=
  ⟨⟨by norm_num [V1.VOLTAGE_LOW_1, V1.VOLTAGE_HIGH_1],
    by norm_num [V2.VOLTAGE_LOW_1, V2.VOLTAGE_HIGH_1],
    by decide, by decide, by decide, by decide, by decide, by decide, by decide⟩,
   millis_zero_sentinel (19/5) 4 20 310 3010
     (by norm_num [V1.VOLTAGE_LOW_1, V1.VOLTAGE_HIGH_1])
     (by norm_num [V2.VOLTAGE_LOW_1, V2.VOLTAGE_HIGH_1])
     (by decide) (by decide) (by decide) (by decide)
     (by decide) (by decide) (by decide)⟩

/-! ## Latched-implies-timer-set invariant (C8) -/

theorem cc1_inv {fv : ℚ} {now : Nat} {s : V1.St}
    (h : s.startTime1 = 0 → s.condition1Active = false) :
    (V1.checkCondition1 fv now s).startTime1 = 0 →
    (V1.checkCondition1 fv now s).condition1Active = false := by
  unfold V1.checkCondition1; split_ifs <;> simp_all

theorem cc2_inv {fv : ℚ} {now : Nat} {s : V1.St}
    (h : s.startTime2 = 0 → s.condition2Active = false) :
    (V1.checkCondition2 fv now s).startTime2 = 0 →
    (V1.checkCondition2 fv now s).condition2Active = false := by
  unfold V1.checkCondition2; split_ifs <;> simp_all

theorem cc3_inv {fv : ℚ} {now : Nat} {s : V1.St}
    (h : s.startTime3 = 0 → s.condition3Active = false) :
    (V1.checkCondition3 fv now s).startTime3 = 0 →
    (V1.checkCondition3 fv now s).condition3Active = false := by
  unfold V1.checkCondition3; split_ifs <;> simp_all

theorem cc1_frame {fv : ℚ} {now : Nat} {s : V1.St} :
    (V1.checkCondition1 fv now s).condition2Active = s.condition2Active ∧
    (V1.checkCondition1 fv now s).startTime2 = s.startTime2 ∧
    (V1.checkCondition1 fv now s).condition3Active = s.condition3Active ∧
    (V1.checkCondition1 fv now s).startTime3 = s.startTime3 := by
  unfold V1.checkCondition1; split_ifs <;> simp

theorem cc2_frame {fv : ℚ} {now : Nat} {s : V1.St} :
    (V1.checkCondition2 fv now s).condition1Active = s.condition1Active ∧
    (V1.checkCondition2 fv now s).startTime1 = s.startTime1 ∧
    (V1.checkCondition2 fv now s).condition3Active = s.condition3Active ∧
    (V1.checkCondition2 fv now s).startTime3 = s.startTime3 := by
  unfold V1.checkCondition2; split_ifs <;> simp

theorem cc3_frame {fv : ℚ} {now : Nat} {s : V1.St} :
    (V1.checkCondition3 fv now s).condition1Active = s.condition1Active ∧
    (V1.checkCondition3 fv now s).startTime1 = s.startTime1 ∧
    (V1.checkCondition3 fv now s).condition2Active = s.condition2Active ∧
    (V1.checkCondition3 fv now s).startTime2 = s.startTime2 := by
  unfold V1.checkCondition3; split_ifs <;> simp

/-- The per-band invariant of variant 1: a zero hold-timer implies the
band is not latched (equivalently, a latched band has a nonzero
timer). -/
theorem v1_tick_inv {fv : ℚ} {now : Nat} {s : V1.St}
    (h1 : s.startTime1 = 0 → s.condition1Active = false)
    (h2 : s.startTime2 = 0 → s.condition2Active = false)
    (h3 : s.startTime3 = 0 → s.condition3Active = false) :
    ((V1.tick fv now s).startTime1 = 0 → (V1.tick fv now s).condition1Active = false) ∧
    ((V1.tick fv now s).startTime2 = 0 → (V1.tick fv now s).condition2Active = false) ∧
    ((V1.tick fv now s).startTime3 = 0 → (V1.tick fv now s).condition3Active = false) := by
  unfold V1.tick
  refine ⟨?_, ?_, ?_⟩
  · rw [cc3_frame.2.1, cc3_frame.1, cc2_frame.2.1, cc2_frame.1]
    exact cc1_inv h1
  · rw [cc3_frame.2.2.2, cc3_frame.2.2.1]
    exact cc2_inv (by rw [cc1_frame.2.1, cc1_frame.1]; exact h2)
  · exact cc3_inv (by
      rw [cc2_frame.2.2.2, cc2_frame.2.2.1, cc1_frame.2.2.2, cc1_frame.2.2.1]
      exact h3)

theorem v1_run_inv (ticks : List (Nat × ℚ)) :
    ∀ s : V1.St,
      (s.startTime1 = 0 → s.condition1Active = false) →
      (s.startTime2 = 0 → s.condition2Active = false) →
      (s.startTime3 = 0 → s.condition3Active = false) →
      ((V1.runTicks ticks s).startTime1 = 0 →
        (V1.runTicks ticks s).condition1Active = false) ∧
      ((V1.runTicks ticks s).startTime2 = 0 →
        (V1.runTicks ticks s).condition2Active = false) ∧
      ((V1.runTicks ticks s).startTime3 = 0 →
        (V1.runTicks ticks s).condition3Active = false) := by
  induction ticks with
  | nil => intro s h1 h2 h3; exact ⟨h1, h2, h3⟩
  | cons p rest ih =>
    intro s h1 h2 h3
    have hstep := @v1_tick_inv p.2 p.1 s h1 h2 h3
    simpa [V1.runTicks] using ih _ hstep.1 hstep.2.1 hstep.2.2

theorem v2cc1_inv {fv : ℚ} {now : Nat} {s : V2.St}
    (h : s.startTime1 = 0 → s.condition1Active = false) :
    (V2.checkCondition1 fv now s).1.startTime1 = 0 →
    (V2.checkCondition1 fv now s).1.condition1Active = false := by
  unfold V2.checkCondition1; split_ifs <;> simp_all

theorem v2cc2_inv {fv : ℚ} {now : Nat} {s : V2.St}
    (h : s.startTime2 = 0 → s.condition2Active = false) :
    (V2.checkCondition2 fv now s).1.startTime2 = 0 →
    (V2.checkCondition2 fv now s).1.condition2Active = false := by
  unfold V2.checkCondition2; split_ifs <;> simp_all

theorem v2cc3_inv {fv : ℚ} {now : Nat} {s : V2.St}
    (h : s.startTime3 = 0 → s.condition3Active = false) :
    (V2.checkCondition3 fv now s).1.startTime3 = 0 →
    (V2.checkCondition3 fv now s).1.condition3Active = false := by
  unfold V2.checkCondition3; split_ifs <;> simp_all

theorem v2cc1_frame {fv : ℚ} {now : Nat} {s : V2.St} :
    (V2.checkCondition1 fv now s).1.condition2Active = s.condition2Active ∧
    (V2.checkCondition1 fv now s).1.startTime2 = s.startTime2 ∧
    (V2.checkCondition1 fv now s).1.condition3Active = s.condition3Active ∧
    (V2.checkCondition1 fv now s).1.startTime3 = s.startTime3 := by
  unfold V2.checkCondition1; split_ifs <;> simp

theorem v2cc2_frame {fv : ℚ} {now : Nat} {s : V2.St} :
    (V2.checkCondition2 fv now s).1.condition1Active = s.condition1Active ∧
    (V2.checkCondition2 fv now s).1.startTime1 = s.startTime1 ∧
    (V2.checkCondition2 fv now s).1.condition3Active = s.condition3Active ∧
    (V2.checkCondition2 fv now s).1.startTime3 = s.startTime3 := by
  unfold V2.checkCondition2; split_ifs <;> simp

theorem v2cc3_frame {fv : ℚ} {now : Nat} {s : V2.St} :
    (V2.checkCondition3 fv now s).1.condition1Active = s.condition1Active ∧
    (V2.checkCondition3 fv now s).1.startTime1 = s.startTime1 ∧
    (V2.checkCondition3 fv now s).1.condition2Active = s.condition2Active ∧
    (V2.checkCondition3 fv now s).1.startTime2 = s.startTime2 := by
  unfold V2.checkCondition3; split_ifs <;> simp

theorem v2_tick_inv {fv : ℚ} {now : Nat} {s : V2.St}
    (h1 : s.startTime1 = 0 → s.condition1Active = false)
    (h2 : s.startTime2 = 0 → s.condition2Active = false)
    (h3 : s.startTime3 = 0 → s.condition3Active = false) :
    ((V2.tick fv now s).startTime1 = 0 → (V2.tick fv now s).condition1Active = false) ∧
    ((V2.tick fv now s).startTime2 = 0 → (V2.tick fv now s).condition2Active = false) ∧
    ((V2.tick fv now s).startTime3 = 0 → (V2.tick fv now s).condition3Active = false) := by
  unfold V2.tick
  refine ⟨?_, ?_, ?_⟩
  · rw [v2cc3_frame.2.1, v2cc3_frame.1, v2cc2_frame.2.1, v2cc2_frame.1]
    exact v2cc1_inv h1
  · rw [v2cc3_frame.2.2.2, v2cc3_frame.2.2.1]
    exact v2cc2_inv (by rw [v2cc1_frame.2.1, v2cc1_frame.1]; exact h2)
  · exact v2cc3_inv (by
      rw [v2cc2_frame.2.2.2, v2cc2_frame.2.2.1, v2cc1_frame.2.2.2, v2cc1_frame.2.2.1]
      exact h3)

theorem v2_run_inv (ticks : List (Nat × ℚ)) :
    ∀ s : V2.St,
      (s.startTime1 = 0 → s.condition1Active = false) →
      (s.startTime2 = 0 → s.condition2Active = false) →
      (s.startTime3 = 0 → s.condition3Active = false) →
      ((V2.runTicks ticks s).startTime1 = 0 →
        (V2.runTicks ticks s).condition1Active = false) ∧
      ((V2.runTicks ticks s).startTime2 = 0 →
        (V2.runTicks ticks s).condition2Active = false) ∧
      ((V2.runTicks ticks s).startTime3 = 0 →
        (V2.runTicks ticks s).condition3Active = false) := by
  induction ticks with
  | nil => intro s h1 h2 h3; exact ⟨h1, h2, h3⟩
  | cons p rest ih =>
    intro s h1 h2 h3
    have hstep := @v2_tick_inv p.2 p.1 s h1 h2 h3
    simpa [V2.runTicks] using ih _ hstep.1 hstep.2.1 hstep.2.2

/-- C8 — In both variants, after any sequence of ticks starting
from the initial state (flags false, timers 0), every band satisfies
the invariant "latched implies nonzero entry timer", stated in
contrapositive form: a band whose timer holds the not-entered
sentinel 0 is not latched. -/
theorem active_implies_timer_set (ticks : List (Nat × ℚ)) :
    (((V1.runTicks ticks V1.idleSt).startTime1 = 0 →
       (V1.runTicks ticks V1.idleSt).condition1Active = false) ∧
     ((V1.runTicks ticks V1.idleSt).startTime2 = 0 →
       (V1.runTicks ticks V1.idleSt).condition2Active = false) ∧
     ((V1.runTicks ticks V1.idleSt).startTime3 = 0 →
       (V1.runTicks ticks V1.idleSt).condition3Active = false)) ∧
    (((V2.runTicks ticks V2.idleSt).startTime1 = 0 →
       (V2.runTicks ticks V2.idleSt).condition1Active = false) ∧
     ((V2.runTicks ticks V2.idleSt).startTime2 = 0 →
       (V2.runTicks ticks V2.idleSt).condition2Active = false) ∧
     ((V2.runTicks ticks V2.idleSt).startTime3 = 0 →
       (V2.runTicks ticks V2.idleSt).condition3Active = false)) :=
  ⟨v1_run_inv ticks V1.idleSt (fun _ => rfl) (fun _ => rfl) (fun _ => rfl),
   v2_run_inv ticks V2.idleSt (fun _ => rfl) (fun _ => rfl) (fun _ => rfl)⟩

/-- Witness for `active_implies_timer_set`: after a two-tick trace that
latches no band, every sentinel-timer band is indeed unlatched. -/
theorem active_implies_timer_set_witness :
    ((V1.runTicks [(100, 1), (200, 1)] V1.idleSt).startTime1 = 0 ∧
     (V1.runTicks [(100, 1), (200, 1)] V1.idleSt).condition1Active = false) ∧
    ((V2.runTicks [(100, 1), (200, 1)] V2.idleSt).startTime1 = 0 ∧
     (V2.runTicks [(100, 1), (200, 1)] V2.idleSt).condition1Active = false) := by
  have h1 : (V1.runTicks [(100, 1), (200, 1)] V1.idleSt).startTime1 = 0 := by
    norm_num [V1.runTicks, V1.tick, V1.checkCondition1, V1.checkCondition2,
      V1.checkCondition3, V1.idleSt, V1.VOLTAGE_LOW_1, V1.VOLTAGE_LOW_2,
      V1.VOLTAGE_LOW_3, V1.VOLTAGE_HIGH_1, V1.VOLTAGE_HIGH_2, V1.VOLTAGE_HIGH_3]
  have h2 : (V2.runTicks [(100, 1), (200, 1)] V2.idleSt).startTime1 = 0 := by
    norm_num [V2.runTicks, V2.tick, V2.checkCondition1, V2.checkCondition2,
      V2.checkCondition3, V2.idleSt, V2.VOLTAGE_LOW_1, V2.VOLTAGE_LOW_2,
      V2.VOLTAGE_LOW_3, V2.VOLTAGE_HIGH_1, V2.VOLTAGE_HIGH_2, V2.VOLTAGE_HIGH_3]
  exact ⟨⟨h1, (active_implies_timer_set [(100, 1), (200, 1)]).1.1 h1⟩,
         ⟨h2, (active_implies_timer_set [(100, 1), (200, 1)]).2.1 h2⟩⟩

/-! ## Filter claims -/

/-- C9 — Each `readVoltage` call overwrites exactly the buffer slot
at the pre-call `readIndex` (with the converted reading), leaves every
other slot unchanged, and advances `readIndex` by one modulo `N`, so
`readIndex` stays in `[0, N)` and the buffer length is preserved. -/
theorem readVoltage_frame (N raw : Nat) (f : FilterSt)
    (hlen : f.readings.length = N) (hidx : f.readIndex < N) :
    (readVoltage N raw f).1.readIndex = (f.readIndex + 1) % N ∧
    (readVoltage N raw f).1.readIndex < N ∧
    (readVoltage N raw f).1.readings.length = N ∧
    (readVoltage N raw f).1.readings[f.readIndex]? = some (rawToVolt raw) ∧
    ∀ i, i ≠ f.readIndex → (readVoltage N raw f).1.readings[i]? = f.readings[i]? := by
  refine ⟨rfl, ?_, ?_, ?_, ?_⟩
  · exact Nat.mod_lt _ (Nat.lt_of_le_of_lt (Nat.zero_le _) hidx)
  · simp [readVoltage, hlen]
  · have h : f.readIndex < f.readings.length := hlen ▸ hidx
    simp [readVoltage, List.getElem?_set_self', List.getElem?_eq_getElem h]
  · intro i hi
    simp [readVoltage, List.getElem?_set_ne (Ne.symm hi)]

/-- Witness for `readVoltage_frame`: a 3-slot buffer with write index 1. -/
theorem readVoltage_frame_witness :
    ((FilterSt.mk [0, 0, 0] 1).readings.length = 3 ∧
     (FilterSt.mk [0, 0, 0] 1).readIndex < 3) ∧
    ((readVoltage 3 512 (FilterSt.mk [0, 0, 0] 1)).1.readIndex = (1 + 1) % 3 ∧
     (readVoltage 3 512 (FilterSt.mk [0, 0, 0] 1)).1.readIndex < 3 ∧
     (readVoltage 3 512 (FilterSt.mk [0, 0, 0] 1)).1.readings.length = 3 ∧
     (readVoltage 3 512 (FilterSt.mk [0, 0, 0] 1)).1.readings[(1:Nat)]? = some (rawToVolt 512) ∧
     ∀ i, i ≠ 1 → (readVoltage 3 512 (FilterSt.mk [0, 0, 0] 1)).1.readings[i]? =
       (FilterSt.mk [0, 0, 0] 1).readings[i]?) :=
  ⟨⟨rfl, by decide⟩, readVoltage_frame 3 512 (FilterSt.mk [0, 0, 0] 1) rfl (by decide)⟩

/-- C6 counterexample — At the maximal raw reading 1023, the value
the source inserts into the buffer (`rawToVolt 1023 = 1023·5/1024`)
differs from the claim's formula `r · referenceVoltage / ADC_MAX` with
`ADC_MAX = 1023` the largest value `analogRead` can return
(`specRawToVolt 1023 = 5`): the code divides by `ADC_MAX + 1 = 1024`,
not by the maximum returnable value. -/
theorem adc_scale_cex :
    (readVoltage 10 1023 (initFilter 10)).1.readings[(0:Nat)]? = some (rawToVolt 1023) ∧
    rawToVolt 1023 ≠ specRawToVolt 1023 := by
  constructor
  · rfl
  · norm_num [rawToVolt, specRawToVolt]

/-- C6 amended — For every raw analog reading `r ≤ 1023`, the value
`readVoltage` inserts into the buffer slot at the pre-call `readIndex`
equals `r * 5 / 1024`: the reference voltage 5.0 divided by the number
of ADC quantization levels `ADC_MAX + 1 = 1024` rather than by the
maximum returnable value `ADC_MAX = 1023`. -/
theorem adc_scale (N raw : Nat) (f : FilterSt)
    (hlen : f.readings.length = N) (hidx : f.readIndex < N)
    (hraw : raw ≤ 1023) :
    (readVoltage N raw f).1.readings[f.readIndex]? = some ((raw * 5 : ℚ) / 1024) := by
  have h : f.readIndex < f.readings.length := hlen ▸ hidx
  simp [readVoltage, rawToVolt, List.getElem?_set_self', List.getElem?_eq_getElem h]

/-- Witness for `adc_scale`: raw reading 1023 on the fresh 10-slot
buffer lands in slot 0 as `1023 * 5 / 1024`. -/
theorem adc_scale_witness :
    ((initFilter 10).readings.length = 10 ∧ (initFilter 10).readIndex < 10 ∧
     1023 ≤ 1023) ∧
    (readVoltage 10 1023 (initFilter 10)).1.readings[(initFilter 10).readIndex]? =
      some ((1023 * 5 : ℚ) / 1024) :=
  ⟨⟨rfl, by decide, by decide⟩,
   adc_scale 10 1023 (initFilter 10) rfl (by decide) (by decide)⟩

/-- After `k ≤ N` ticks of the constant raw reading, the buffer holds
`k` copies of the converted reading followed by `N - k` of the initial
zeros, and the write index is `k % N`. -/
theorem runFilter_state (N raw : Nat) :
    ∀ k, k ≤ N → (runFilter N raw k).1 =
      FilterSt.mk
        (List.replicate k (rawToVolt raw) ++ List.replicate (N - k) 0)
        (k % N) := by
  intro k
  induction k with
  | zero => intro _; simp [runFilter, initFilter]
  | succ k ih =>
    intro hk
    have hkN : k < N := Nat.lt_of_succ_le hk
    have hmod : k % N = k := Nat.mod_eq_of_lt hkN
    rw [runFilter, ih (Nat.le_of_lt hkN)]
    unfold readVoltage
    simp only [hmod]
    congr 1
    rw [List.set_append_right k (rawToVolt raw)
      (by simp [List.length_replicate])]
    have hNk : N - k = (N - (k + 1)) + 1 := by omega
    simp only [List.length_replicate, Nat.sub_self, hNk,
      List.replicate_succ, List.set_cons_zero]
    rw [List.append_cons, ← List.replicate_succ' k (rawToVolt raw)]
    simp [List.replicate_succ]

/-- C5 — Starting from the zero-initialized `N`-slot buffer and
feeding the same raw reading every tick, the filtered voltage after
`k ≤ N` ticks equals `k·v/N` (the linearly increasing, zero-biased
warm-up average), and on the `N`-th tick it equals the converted
voltage `v` exactly, the buffer being fully replaced. -/
theorem filter_warmup (N raw k : Nat) (hN : 0 < N) (hk : k ≤ N) :
    (runFilter N raw k).2 = (k * rawToVolt raw) / N ∧
    (runFilter N raw N).2 = rawToVolt raw := by
  have hNne : (N : ℚ) ≠ 0 := Nat.cast_ne_zero.mpr hN.ne'
  have key : ∀ j, j ≤ N → (runFilter N raw j).2 = (j * rawToVolt raw) / N := by
    intro j hj
    match j with
    | 0 => simp [runFilter]
    | j + 1 =>
      have hstate := runFilter_state N raw (j + 1) hj
      have : (runFilter N raw (j + 1)).2 =
          (runFilter N raw (j + 1)).1.readings.sum / N := by
        rw [runFilter]; rfl
      rw [this, hstate]
      simp [List.sum_replicate, nsmul_eq_mul]
  refine ⟨key k hk, ?_⟩
  rw [key N le_rfl]
  exact mul_div_cancel_left₀ _ hNne

/-- Witness for `filter_warmup`: `N = 10`, raw reading 512, `k = 3`
ticks give filtered voltage `3·v/10`, and tick 10 gives `v`. -/
theorem filter_warmup_witness :
    (0 < 10 ∧ 3 ≤ 10) ∧
    ((runFilter 10 512 3).2 = (3 * rawToVolt 512) / 10 ∧
     (runFilter 10 512 10).2 = rawToVolt 512) :=
  ⟨⟨by decide, by decide⟩, by
    have h := filter_warmup 10 512 3 (by decide) (by decide)
    simpa using h⟩

/-! ## Threshold monotonicity for the NEXT band (C3) -/

theorem cc3_in_active {fv : ℚ} {now : Nat} {s : V1.St}
    (hin : V1.VOLTAGE_LOW_3 ≤ fv ∧ fv ≤ V1.VOLTAGE_HIGH_3)
    (ha : s.condition3Active = true) :
    V1.checkCondition3 fv now s = s := by
  simp [V1.checkCondition3, hin.1, hin.2, ha]

theorem cc3_in_entry {fv : ℚ} {now : Nat} {s : V1.St}
    (hin : V1.VOLTAGE_LOW_3 ≤ fv ∧ fv ≤ V1.VOLTAGE_HIGH_3)
    (ha : s.condition3Active = false) (h0 : s.startTime3 = 0) :
    V1.checkCondition3 fv now s = { s with startTime3 := now } := by
  simp [V1.checkCondition3, hin.1, hin.2, ha, h0]

theorem cc3_in_latch {fv : ℚ} {now : Nat} {s : V1.St}
    (hin : V1.VOLTAGE_LOW_3 ≤ fv ∧ fv ≤ V1.VOLTAGE_HIGH_3)
    (ha : s.condition3Active = false) (h0 : s.startTime3 ≠ 0)
    (hth : V1.DURATION_THRESHOLD_1 ≤ usub32 now s.startTime3) :
    V1.checkCondition3 fv now s =
      { s with condition3Active := true, nextPin := true } := by
  simp [V1.checkCondition3, hin.1, hin.2, ha, h0, hth]

theorem cc3_in_wait {fv : ℚ} {now : Nat} {s : V1.St}
    (hin : V1.VOLTAGE_LOW_3 ≤ fv ∧ fv ≤ V1.VOLTAGE_HIGH_3)
    (ha : s.condition3Active = false) (h0 : s.startTime3 ≠ 0)
    (hlt : usub32 now s.startTime3 < 300) :
    V1.checkCondition3 fv now s = s := by
  have h1 : ¬ (V1.DURATION_THRESHOLD_1 ≤ usub32 now s.startTime3) := by
    simp only [V1.DURATION_THRESHOLD_1]; omega
  simp [V1.checkCondition3, hin.1, hin.2, ha, h0, h1]

/-- Closed form of a constant in-band run of the NEXT band: after
processing the ticks at `t0, t0 + d, ..., t0 + k·d`, the band is
Latched (flag set, NEXT_PIN high) iff the elapsed time `k·d` has
reached the 300 ms hold threshold, and is Pending on `t0` otherwise. -/
theorem run3_closed (fv : ℚ) (t0 d : Nat)
    (hin : V1.VOLTAGE_LOW_3 ≤ fv ∧ fv ≤ V1.VOLTAGE_HIGH_3) (ht0 : 0 < t0) :
    ∀ k, k * d < M32 →
      V1.run3 fv t0 d (k + 1) =
        if 300 ≤ k * d
        then { V1.idleSt with condition3Active := true, startTime3 := t0, nextPin := true }
        else { V1.idleSt with startTime3 := t0 } := by
  intro k
  induction k with
  | zero =>
    intro _
    rw [V1.run3, V1.run3, cc3_in_entry hin rfl rfl]
    simp
  | succ k ih =>
    intro hb
    have hb' : k * d < M32 :=
      Nat.lt_of_le_of_lt (Nat.mul_le_mul_right d (Nat.le_succ k)) hb
    have hsub : usub32 (t0 + (k + 1) * d) t0 = (k + 1) * d := by
      rw [usub32_eq_sub _ _ (Nat.le_add_right _ _) (by omega)]
      omega
    rw [V1.run3, ih hb']
    by_cases h1 : 300 ≤ k * d
    · have h2 : 300 ≤ (k + 1) * d :=
        le_trans h1 (Nat.mul_le_mul_right d (Nat.le_succ k))
      rw [if_pos h1, if_pos h2, cc3_in_active hin rfl]
    · rw [if_neg h1]
      by_cases h2 : 300 ≤ (k + 1) * d
      · rw [if_pos h2, cc3_in_latch hin rfl (by simp [V1.idleSt]; omega)
          (by simpa [V1.idleSt, V1.DURATION_THRESHOLD_1, hsub] using h2)]
      · rw [if_neg h2, cc3_in_wait hin rfl (by simp [V1.idleSt]; omega)
          (by simp only [V1.idleSt] at *; omega)]

/-- C3 — For the single-threshold NEXT band held continuously
in-band at ticks `t0, t0 + d, ..., t0 + k·d` (starting from Idle with
`t0 > 0`, no timer wrap within the run), NEXT_PIN is active after the
tick at `t0 + k·d` exactly when the elapsed time `k·d` has reached the
300 ms hold duration — so the output becomes active at the first tick
with `t - t0 ≥ 300` and at no earlier tick. -/
theorem next_latch_first (fv : ℚ) (t0 d k : Nat)
    (hin : V1.VOLTAGE_LOW_3 ≤ fv ∧ fv ≤ V1.VOLTAGE_HIGH_3)
    (ht0 : 0 < t0) (hb : k * d < M32) :
    (V1.run3 fv t0 d (k + 1)).nextPin = true ↔ 300 ≤ k * d := by
  rw [run3_closed fv t0 d hin ht0 k hb]
  split_ifs with h <;> simp [h, V1.idleSt]

/-- Witness for `next_latch_first`: voltage 1.6 V, entry at
`t0 = 1000`, ticks every 20 ms; after the 15th subsequent tick
(elapsed 300 ms) NEXT_PIN is high. -/
theorem next_latch_first_witness :
    ((V1.VOLTAGE_LOW_3 ≤ (8/5 : ℚ) ∧ (8/5 : ℚ) ≤ V1.VOLTAGE_HIGH_3) ∧
      0 < 1000 ∧ 15 * 20 < M32) ∧
    ((V1.run3 (8/5) 1000 20 (15 + 1)).nextPin = true ↔ 300 ≤ 15 * 20) :=
  ⟨⟨by norm_num [V1.VOLTAGE_LOW_3, V1.VOLTAGE_HIGH_3], by decide,
    by decide⟩,
   next_latch_first (8/5) 1000 20 15
     (by norm_num [V1.VOLTAGE_LOW_3, V1.VOLTAGE_HIGH_3])
     (by decide) (by decide)⟩

/-! ## Dual-threshold precedence for the MUTE/RESET band (C1) -/

/-- Closed form of a constant in-band run of the dual-threshold band:
after the ticks at `times 0, ..., times k` (nondecreasing, starting
from Idle), the band is Latched with MUTE_PIN high iff the elapsed
time has reached the short 300 ms threshold, and RESET_PIN is low in
every reachable state. -/
theorem run1_closed (fv : ℚ) (times : Nat → Nat)
    (hin : V1.VOLTAGE_LOW_1 ≤ fv ∧ fv ≤ V1.VOLTAGE_HIGH_1)
    (ht0 : 0 < times 0)
    (hmono : ∀ i j, i ≤ j → times i ≤ times j) :
    ∀ k, times k - times 0 < M32 →
      V1.run1 fv times (k + 1) =
        if 300 ≤ times k - times 0
        then { V1.idleSt with condition1Active := true, startTime1 := times 0, mutePin := true }
        else { V1.idleSt with startTime1 := times 0 } := by
  intro k
  induction k with
  | zero =>
    intro _
    rw [V1.run1, V1.run1, cc1_in_entry hin rfl rfl]
    simp
  | succ k ih =>
    intro hb
    have hstep : times k ≤ times (k + 1) := hmono k (k + 1) (Nat.le_succ k)
    have hb' : times k - times 0 < M32 := by omega
    have h0k : times 0 ≤ times (k + 1) := hmono 0 (k + 1) (Nat.zero_le _)
    have hsub : usub32 (times (k + 1)) (times 0) = times (k + 1) - times 0 :=
      usub32_eq_sub _ _ h0k hb
    rw [V1.run1, ih hb']
    by_cases h1 : 300 ≤ times k - times 0
    · have h2 : 300 ≤ times (k + 1) - times 0 := by omega
      rw [if_pos h1, if_pos h2, cc1_in_active hin rfl]
    · rw [if_neg h1]
      by_cases h2 : 300 ≤ times (k + 1) - times 0
      · rw [if_pos h2, cc1_in_latch hin rfl (by simp [V1.idleSt]; omega)
          (by simpa [V1.idleSt, V1.DURATION_THRESHOLD_1, hsub] using h2)]
      · rw [if_neg h2, cc1_in_wait hin rfl (by simp [V1.idleSt]; omega)
          (by simp only [V1.idleSt] at *; omega)]

/-- C1 — For the dual-threshold MUTE/RESET band held continuously
in the 3.70–3.90 V band over the ticks `times 0, ..., times k`
(nondecreasing, starting from Idle with `times 0 > 0`, no timer wrap):
MUTE_PIN is high after tick `k` exactly when the elapsed time has
reached the short threshold `T1 = 300` ms — i.e. it latches at the
first tick with elapsed ≥ 300 ms — and RESET_PIN is never driven HIGH
at any point of the occupancy, whatever the tick spacing. -/
theorem dual_threshold_precedence (fv : ℚ) (times : Nat → Nat) (k : Nat)
    (hin : V1.VOLTAGE_LOW_1 ≤ fv ∧ fv ≤ V1.VOLTAGE_HIGH_1)
    (ht0 : 0 < times 0)
    (hmono : ∀ i j, i ≤ j → times i ≤ times j)
    (hb : times k - times 0 < M32) :
    ((V1.run1 fv times (k + 1)).mutePin = true ↔ times 0 + 300 ≤ times k) ∧
    (V1.run1 fv times (k + 1)).resetPin = false := by
  have h0k : times 0 ≤ times k := hmono 0 k (Nat.zero_le _)
  rw [run1_closed fv times hin ht0 hmono k hb]
  split_ifs with h <;>
    simp [V1.idleSt] <;> omega

/-- Witness for `dual_threshold_precedence`: ticks every 10 ms from
`times 0 = 1000`; after tick 35 (elapsed 350 ms ≥ 300) MUTE_PIN is
high and RESET_PIN is still low. -/
theorem dual_threshold_precedence_witness :
    ((V1.VOLTAGE_LOW_1 ≤ (19/5 : ℚ) ∧ (19/5 : ℚ) ≤ V1.VOLTAGE_HIGH_1) ∧
      0 < (fun i => 1000 + 10 * i) 0 ∧
      (∀ i j, i ≤ j → (fun i => 1000 + 10 * i) i ≤ (fun i => 1000 + 10 * i) j) ∧
      (fun i => 1000 + 10 * i) 35 - (fun i => 1000 + 10 * i) 0 < M32) ∧
    (((V1.run1 (19/5) (fun i => 1000 + 10 * i) (35 + 1)).mutePin = true ↔
        (fun i => 1000 + 10 * i) 0 + 300 ≤ (fun i => 1000 + 10 * i) 35) ∧
      (V1.run1 (19/5) (fun i => 1000 + 10 * i) (35 + 1)).resetPin = false) :=
  ⟨⟨by norm_num [V1.VOLTAGE_LOW_1, V1.VOLTAGE_HIGH_1], by decide,
    fun i j h => by show 1000 + 10 * i ≤ 1000 + 10 * j; omega, by decide⟩,
   dual_threshold_precedence (19/5) (fun i => 1000 + 10 * i) 35
     (by norm_num [V1.VOLTAGE_LOW_1, V1.VOLTAGE_HIGH_1])
     (by decide) (fun i j h => by show 1000 + 10 * i ≤ 1000 + 10 * j; omega) (by decide)⟩

/-! ## Edge-triggered activation for the PREV band (C2) -/

theorem cc2_in_active {fv : ℚ} {now : Nat} {s : V1.St}
    (hin : V1.VOLTAGE_LOW_2 ≤ fv ∧ fv ≤ V1.VOLTAGE_HIGH_2)
    (ha : s.condition2Active = true) :
    V1.checkCondition2 fv now s = s := by
  simp [V1.checkCondition2, hin.1, hin.2, ha]

theorem cc2_in_entry {fv : ℚ} {now : Nat} {s : V1.St}
    (hin : V1.VOLTAGE_LOW_2 ≤ fv ∧ fv ≤ V1.VOLTAGE_HIGH_2)
    (ha : s.condition2Active = false) (h0 : s.startTime2 = 0) :
    V1.checkCondition2 fv now s = { s with startTime2 := now } := by
  simp [V1.checkCondition2, hin.1, hin.2, ha, h0]

theorem cc2_in_latch {fv : ℚ} {now : Nat} {s : V1.St}
    (hin : V1.VOLTAGE_LOW_2 ≤ fv ∧ fv ≤ V1.VOLTAGE_HIGH_2)
    (ha : s.condition2Active = false) (h0 : s.startTime2 ≠ 0)
    (hth : V1.DURATION_THRESHOLD_1 ≤ usub32 now s.startTime2) :
    V1.checkCondition2 fv now s =
      { s with condition2Active := true, prevPin := true } := by
  simp [V1.checkCondition2, hin.1, hin.2, ha, h0, hth]

theorem cc2_in_wait {fv : ℚ} {now : Nat} {s : V1.St}
    (hin : V1.VOLTAGE_LOW_2 ≤ fv ∧ fv ≤ V1.VOLTAGE_HIGH_2)
    (ha : s.condition2Active = false) (h0 : s.startTime2 ≠ 0)
    (hlt : ¬ (V1.DURATION_THRESHOLD_1 ≤ usub32 now s.startTime2)) :
    V1.checkCondition2 fv now s = s := by
  simp [V1.checkCondition2, hin.1, hin.2, ha, h0, hlt]

theorem cc2_out {fv : ℚ} {now : Nat} {s : V1.St}
    (hout : ¬ (V1.VOLTAGE_LOW_2 ≤ fv ∧ fv ≤ V1.VOLTAGE_HIGH_2)) :
    V1.checkCondition2 fv now s =
      { s with
        prevPin := if s.condition2Active then false else s.prevPin,
        condition2Active := false,
        startTime2 := 0 } := by
  simp only [V1.checkCondition2, if_neg hout]

theorem pinTrace2_head (s : V1.St) (l : List (Nat × ℚ)) :
    ∃ t, V1.pinTrace2 s l = s.prevPin :: t := by
  cases l <;> exact ⟨_, rfl⟩

theorem edgesUp_cons (x : Bool) (s : V1.St) (l : List (Nat × ℚ)) :
    edgesUp (x :: V1.pinTrace2 s l) =
      (if x = false ∧ s.prevPin = true then 1 else 0) +
        edgesUp (V1.pinTrace2 s l) := by
  obtain ⟨t, ht⟩ := pinTrace2_head s l
  rw [ht]
  rfl

theorem edgesDown_cons (x : Bool) (s : V1.St) (l : List (Nat × ℚ)) :
    edgesDown (x :: V1.pinTrace2 s l) =
      (if x = true ∧ s.prevPin = false then 1 else 0) +
        edgesDown (V1.pinTrace2 s l) := by
  obtain ⟨t, ht⟩ := pinTrace2_head s l
  rw [ht]
  rfl

/-- A latched PREV band held in-band re-drives nothing; the final
out-of-band tick releases the output exactly once. -/
theorem trace2_latched (tOut : Nat) (fvOut : ℚ)
    (hout : ¬ (V1.VOLTAGE_LOW_2 ≤ fvOut ∧ fvOut ≤ V1.VOLTAGE_HIGH_2)) :
    ∀ (l : List (Nat × ℚ)) (s : V1.St),
      (∀ p ∈ l, V1.VOLTAGE_LOW_2 ≤ p.2 ∧ p.2 ≤ V1.VOLTAGE_HIGH_2) →
      s.condition2Active = true → s.prevPin = true →
      edgesUp (V1.pinTrace2 s (l ++ [(tOut, fvOut)])) = 0 ∧
      edgesDown (V1.pinTrace2 s (l ++ [(tOut, fvOut)])) = 1 := by
  intro l
  induction l with
  | nil =>
    intro s _ ha hp
    have hstep := @cc2_out fvOut tOut s hout
    simp [V1.pinTrace2, hstep, edgesUp, edgesDown, ha, hp]
  | cons p rest ih =>
    intro s hin ha hp
    have hinp : V1.VOLTAGE_LOW_2 ≤ p.2 ∧ p.2 ≤ V1.VOLTAGE_HIGH_2 :=
      hin p (List.mem_cons_self p rest)
    have hrest : ∀ q ∈ rest, V1.VOLTAGE_LOW_2 ≤ q.2 ∧ q.2 ≤ V1.VOLTAGE_HIGH_2 :=
      fun q hq => hin q (List.mem_cons_of_mem p hq)
    have hstep : V1.checkCondition2 p.2 p.1 s = s := cc2_in_active hinp ha
    have hih := ih s hrest ha hp
    simp only [List.cons_append, V1.pinTrace2, hstep]
    rw [edgesUp_cons, edgesDown_cons, hp]
    simpa using hih

/-- From an unlatched state with the output low, an in-band run followed
by a band exit produces at most one activation edge and exactly as many
release edges as activation edges on PREV_PIN. -/
theorem trace2_idle (tOut : Nat) (fvOut : ℚ)
    (hout : ¬ (V1.VOLTAGE_LOW_2 ≤ fvOut ∧ fvOut ≤ V1.VOLTAGE_HIGH_2)) :
    ∀ (l : List (Nat × ℚ)) (s : V1.St),
      (∀ p ∈ l, V1.VOLTAGE_LOW_2 ≤ p.2 ∧ p.2 ≤ V1.VOLTAGE_HIGH_2) →
      s.condition2Active = false → s.prevPin = false →
      edgesUp (V1.pinTrace2 s (l ++ [(tOut, fvOut)])) ≤ 1 ∧
      edgesDown (V1.pinTrace2 s (l ++ [(tOut, fvOut)])) =
        edgesUp (V1.pinTrace2 s (l ++ [(tOut, fvOut)])) := by
  intro l
  induction l with
  | nil =>
    intro s _ ha hp
    have hstep := @cc2_out fvOut tOut s hout
    simp [V1.pinTrace2, hstep, edgesUp, edgesDown, ha, hp]
  | cons p rest ih =>
    intro s hin ha hp
    have hinp : V1.VOLTAGE_LOW_2 ≤ p.2 ∧ p.2 ≤ V1.VOLTAGE_HIGH_2 :=
      hin p (List.mem_cons_self p rest)
    have hrest : ∀ q ∈ rest, V1.VOLTAGE_LOW_2 ≤ q.2 ∧ q.2 ≤ V1.VOLTAGE_HIGH_2 :=
      fun q hq => hin q (List.mem_cons_of_mem p hq)
    by_cases h0 : s.startTime2 = 0
    · have hstep := @cc2_in_entry p.2 p.1 s hinp ha h0
      have hih := ih { s with startTime2 := p.1 } hrest ha hp
      simp only [List.cons_append, V1.pinTrace2, hstep]
      rw [edgesUp_cons, edgesDown_cons]
      simp only [hp]
      simpa [hp] using hih
    · by_cases hth : V1.DURATION_THRESHOLD_1 ≤ usub32 p.1 s.startTime2
      · have hstep := cc2_in_latch hinp ha h0 hth
        have hlat := trace2_latched tOut fvOut hout rest
          { s with condition2Active := true, prevPin := true } hrest rfl rfl
        simp only [List.cons_append, V1.pinTrace2, hstep]
        rw [edgesUp_cons, edgesDown_cons]
        simp only [hp]
        simp [hlat.1, hlat.2]
      · have hstep := cc2_in_wait hinp ha h0 hth
        have hih := ih s hrest ha hp
        simp only [List.cons_append, V1.pinTrace2, hstep]
        rw [edgesUp_cons, edgesDown_cons]
        simp only [hp]
        simpa using hih

theorem v2cc2_in_active {fv : ℚ} {now : Nat} {s : V2.St}
    (hin : V2.VOLTAGE_LOW_2 ≤ fv ∧ fv ≤ V2.VOLTAGE_HIGH_2)
    (ha : s.condition2Active = true) :
    V2.checkCondition2 fv now s = (s, 0) := by
  simp [V2.checkCondition2, hin.1, hin.2, ha]

theorem v2cc2_in_entry {fv : ℚ} {now : Nat} {s : V2.St}
    (hin : V2.VOLTAGE_LOW_2 ≤ fv ∧ fv ≤ V2.VOLTAGE_HIGH_2)
    (ha : s.condition2Active = false) (h0 : s.startTime2 = 0) :
    V2.checkCondition2 fv now s = ({ s with startTime2 := now }, 0) := by
  simp [V2.checkCondition2, hin.1, hin.2, ha, h0]

theorem v2cc2_in_latch {fv : ℚ} {now : Nat} {s : V2.St}
    (hin : V2.VOLTAGE_LOW_2 ≤ fv ∧ fv ≤ V2.VOLTAGE_HIGH_2)
    (ha : s.condition2Active = false) (h0 : s.startTime2 ≠ 0)
    (hth : V2.DURATION_THRESHOLD_2 ≤ usub32 now s.startTime2) :
    V2.checkCondition2 fv now s =
      ({ s with condition2Active := true, prevPin := true },
       V2.DURATION_THRESHOLD_2) := by
  simp [V2.checkCondition2, hin.1, hin.2, ha, h0, hth]

theorem v2cc2_in_wait {fv : ℚ} {now : Nat} {s : V2.St}
    (hin : V2.VOLTAGE_LOW_2 ≤ fv ∧ fv ≤ V2.VOLTAGE_HIGH_2)
    (ha : s.condition2Active = false) (h0 : s.startTime2 ≠ 0)
    (hlt : ¬ (V2.DURATION_THRESHOLD_2 ≤ usub32 now s.startTime2)) :
    V2.checkCondition2 fv now s = (s, 0) := by
  simp [V2.checkCondition2, hin.1, hin.2, ha, h0, hlt]

theorem v2cc2_out {fv : ℚ} {now : Nat} {s : V2.St}
    (hout : ¬ (V2.VOLTAGE_LOW_2 ≤ fv ∧ fv ≤ V2.VOLTAGE_HIGH_2)) :
    V2.checkCondition2 fv now s =
      ({ s with
         prevPin := if s.condition2Active then false else s.prevPin,
         condition2Active := false,
         startTime2 := 0 }, 0) := by
  simp only [V2.checkCondition2, if_neg hout]

theorem pinTrace2V2_head (s : V2.St) (l : List (Nat × ℚ)) :
    ∃ t, pinTrace2V2 s l = s.prevPin :: t := by
  cases l <;> exact ⟨_, rfl⟩

theorem edgesUp_consV2 (x : Bool) (s : V2.St) (l : List (Nat × ℚ)) :
    edgesUp (x :: pinTrace2V2 s l) =
      (if x = false ∧ s.prevPin = true then 1 else 0) +
        edgesUp (pinTrace2V2 s l) := by
  obtain ⟨t, ht⟩ := pinTrace2V2_head s l
  rw [ht]
  rfl

theorem edgesDown_consV2 (x : Bool) (s : V2.St) (l : List (Nat × ℚ)) :
    edgesDown (x :: pinTrace2V2 s l) =
      (if x = true ∧ s.prevPin = false then 1 else 0) +
        edgesDown (pinTrace2V2 s l) := by
  obtain ⟨t, ht⟩ := pinTrace2V2_head s l
  rw [ht]
  rfl

/-- A latched PREV band of variant 2 held in-band re-drives nothing;
the final out-of-band tick releases the output exactly once. -/
theorem trace2V2_latched (tOut : Nat) (fvOut : ℚ)
    (hout : ¬ (V2.VOLTAGE_LOW_2 ≤ fvOut ∧ fvOut ≤ V2.VOLTAGE_HIGH_2)) :
    ∀ (l : List (Nat × ℚ)) (s : V2.St),
      (∀ p ∈ l, V2.VOLTAGE_LOW_2 ≤ p.2 ∧ p.2 ≤ V2.VOLTAGE_HIGH_2) →
      s.condition2Active = true → s.prevPin = true →
      edgesUp (pinTrace2V2 s (l ++ [(tOut, fvOut)])) = 0 ∧
      edgesDown (pinTrace2V2 s (l ++ [(tOut, fvOut)])) = 1 := by
  intro l
  induction l with
  | nil =>
    intro s _ ha hp
    have hstep := @v2cc2_out fvOut tOut s hout
    simp [pinTrace2V2, hstep, edgesUp, edgesDown, ha, hp]
  | cons p rest ih =>
    intro s hin ha hp
    have hinp : V2.VOLTAGE_LOW_2 ≤ p.2 ∧ p.2 ≤ V2.VOLTAGE_HIGH_2 :=
      hin p (List.mem_cons_self p rest)
    have hrest : ∀ q ∈ rest, V2.VOLTAGE_LOW_2 ≤ q.2 ∧ q.2 ≤ V2.VOLTAGE_HIGH_2 :=
      fun q hq => hin q (List.mem_cons_of_mem p hq)
    have hstep : V2.checkCondition2 p.2 p.1 s = (s, 0) := v2cc2_in_active hinp ha
    have hih := ih s hrest ha hp
    simp only [List.cons_append, pinTrace2V2, hstep]
    rw [edgesUp_consV2, edgesDown_consV2, hp]
    simpa using hih

/-- From an unlatched state with the output low, an in-band run of
variant 2's PREV band followed by a band exit produces at most one
activation edge and exactly as many release edges as activation
edges. -/
theorem trace2V2_idle (tOut : Nat) (fvOut : ℚ)
    (hout : ¬ (V2.VOLTAGE_LOW_2 ≤ fvOut ∧ fvOut ≤ V2.VOLTAGE_HIGH_2)) :
    ∀ (l : List (Nat × ℚ)) (s : V2.St),
      (∀ p ∈ l, V2.VOLTAGE_LOW_2 ≤ p.2 ∧ p.2 ≤ V2.VOLTAGE_HIGH_2) →
      s.condition2Active = false → s.prevPin = false →
      edgesUp (pinTrace2V2 s (l ++ [(tOut, fvOut)])) ≤ 1 ∧
      edgesDown (pinTrace2V2 s (l ++ [(tOut, fvOut)])) =
        edgesUp (pinTrace2V2 s (l ++ [(tOut, fvOut)])) := by
  intro l
  induction l with
  | nil =>
    intro s _ ha hp
    have hstep := @v2cc2_out fvOut tOut s hout
    simp [pinTrace2V2, hstep, edgesUp, edgesDown, ha, hp]
  | cons p rest ih =>
    intro s hin ha hp
    have hinp : V2.VOLTAGE_LOW_2 ≤ p.2 ∧ p.2 ≤ V2.VOLTAGE_HIGH_2 :=
      hin p (List.mem_cons_self p rest)
    have hrest : ∀ q ∈ rest, V2.VOLTAGE_LOW_2 ≤ q.2 ∧ q.2 ≤ V2.VOLTAGE_HIGH_2 :=
      fun q hq => hin q (List.mem_cons_of_mem p hq)
    by_cases h0 : s.startTime2 = 0
    · have hstep := @v2cc2_in_entry p.2 p.1 s hinp ha h0
      have hih := ih { s with startTime2 := p.1 } hrest ha hp
      simp only [List.cons_append, pinTrace2V2, hstep]
      rw [edgesUp_consV2, edgesDown_consV2]
      simp only [hp]
      simpa [hp] using hih
    · by_cases hth : V2.DURATION_THRESHOLD_2 ≤ usub32 p.1 s.startTime2
      · have hstep := v2cc2_in_latch hinp ha h0 hth
        have hlat := trace2V2_latched tOut fvOut hout rest
          { s with condition2Active := true, prevPin := true } hrest rfl rfl
        simp only [List.cons_append, pinTrace2V2, hstep]
        rw [edgesUp_consV2, edgesDown_consV2]
        simp only [hp]
        simp [hlat.1, hlat.2]
      · have hstep := v2cc2_in_wait hinp ha h0 hth
        have hih := ih s hrest ha hp
        simp only [List.cons_append, pinTrace2V2, hstep]
        rw [edgesUp_consV2, edgesDown_consV2]
        simp only [hp]
        simpa using hih

/-- C2 counterexample — A continuous in-band occupancy of the PREV
band (voltage 2.4 V at the single tick at 1000 ms, exiting at 1100 ms,
from Idle) during which PREV_PIN transitions inactive→active zero
times, not exactly once: an occupancy shorter than the 300 ms hold
never activates the output. -/
theorem prev_exactly_once_cex :
    (V1.VOLTAGE_LOW_2 ≤ (12/5 : ℚ) ∧ (12/5 : ℚ) ≤ V1.VOLTAGE_HIGH_2) ∧
    ¬ (V1.VOLTAGE_LOW_2 ≤ (2 : ℚ) ∧ (2 : ℚ) ≤ V1.VOLTAGE_HIGH_2) ∧
    edgesUp (V1.pinTrace2 V1.idleSt [(1000, 12/5), (1100, 2)]) = 0 ∧
    edgesDown (V1.pinTrace2 V1.idleSt [(1000, 12/5), (1100, 2)]) = 0 := by
  refine ⟨by norm_num [V1.VOLTAGE_LOW_2, V1.VOLTAGE_HIGH_2],
    by norm_num [V1.VOLTAGE_LOW_2, V1.VOLTAGE_HIGH_2], ?_, ?_⟩ <;>
  · norm_num [V1.pinTrace2, V1.checkCondition2, V1.idleSt, edgesUp, edgesDown,
      V1.VOLTAGE_LOW_2, V1.VOLTAGE_HIGH_2]

/-- C2 amended — For every continuous in-band occupancy of the PREV
band in either variant (arbitrary in-band ticks starting from an
unlatched state with the output low, closed by a band-exit tick),
PREV_PIN transitions inactive→active at most once — zero times when
the occupancy never reaches the hold threshold — and transitions
active→inactive exactly as many times as it was activated; it is never
re-driven to a level it already holds. -/
theorem prev_edges_once (ticks ticks2 : List (Nat × ℚ)) (tOut tOut2 : Nat)
    (fvOut fvOut2 : ℚ) (s : V1.St) (u : V2.St)
    (hin : ∀ p ∈ ticks, V1.VOLTAGE_LOW_2 ≤ p.2 ∧ p.2 ≤ V1.VOLTAGE_HIGH_2)
    (hout : ¬ (V1.VOLTAGE_LOW_2 ≤ fvOut ∧ fvOut ≤ V1.VOLTAGE_HIGH_2))
    (ha : s.condition2Active = false) (hp : s.prevPin = false)
    (hin2 : ∀ p ∈ ticks2, V2.VOLTAGE_LOW_2 ≤ p.2 ∧ p.2 ≤ V2.VOLTAGE_HIGH_2)
    (hout2 : ¬ (V2.VOLTAGE_LOW_2 ≤ fvOut2 ∧ fvOut2 ≤ V2.VOLTAGE_HIGH_2))
    (ha2 : u.condition2Active = false) (hp2 : u.prevPin = false) :
    (edgesUp (V1.pinTrace2 s (ticks ++ [(tOut, fvOut)])) ≤ 1 ∧
     edgesDown (V1.pinTrace2 s (ticks ++ [(tOut, fvOut)])) =
       edgesUp (V1.pinTrace2 s (ticks ++ [(tOut, fvOut)]))) ∧
    (edgesUp (pinTrace2V2 u (ticks2 ++ [(tOut2, fvOut2)])) ≤ 1 ∧
     edgesDown (pinTrace2V2 u (ticks2 ++ [(tOut2, fvOut2)])) =
       edgesUp (pinTrace2V2 u (ticks2 ++ [(tOut2, fvOut2)]))) :=
  ⟨trace2_idle tOut fvOut hout ticks s hin ha hp,
   trace2V2_idle tOut2 fvOut2 hout2 ticks2 u hin2 ha2 hp2⟩

/-- Witness for `prev_edges_once`: in variant 1 a 2.4 V occupancy, in
variant 2 a 2.6 V occupancy, each held past the 300 ms threshold
(entry recorded at 1000 ms, latch at 1350 ms) and released at
1400 ms. -/
theorem prev_edges_once_witness :
    ((∀ p ∈ [((1000 : Nat), (12/5 : ℚ)), (1350, 12/5)],
        V1.VOLTAGE_LOW_2 ≤ p.2 ∧ p.2 ≤ V1.VOLTAGE_HIGH_2) ∧
     ¬ (V1.VOLTAGE_LOW_2 ≤ (2 : ℚ) ∧ (2 : ℚ) ≤ V1.VOLTAGE_HIGH_2) ∧
     V1.idleSt.condition2Active = false ∧ V1.idleSt.prevPin = false ∧
     (∀ p ∈ [((1000 : Nat), (13/5 : ℚ)), (1350, 13/5)],
        V2.VOLTAGE_LOW_2 ≤ p.2 ∧ p.2 ≤ V2.VOLTAGE_HIGH_2) ∧
     ¬ (V2.VOLTAGE_LOW_2 ≤ (2 : ℚ) ∧ (2 : ℚ) ≤ V2.VOLTAGE_HIGH_2) ∧
     V2.idleSt.condition2Active = false ∧ V2.idleSt.prevPin = false) ∧
    ((edgesUp (V1.pinTrace2 V1.idleSt
        ([(1000, 12/5), (1350, 12/5)] ++ [(1400, 2)])) ≤ 1 ∧
      edgesDown (V1.pinTrace2 V1.idleSt
        ([(1000, 12/5), (1350, 12/5)] ++ [(1400, 2)])) =
        edgesUp (V1.pinTrace2 V1.idleSt
        ([(1000, 12/5), (1350, 12/5)] ++ [(1400, 2)]))) ∧
     (edgesUp (pinTrace2V2 V2.idleSt
        ([(1000, 13/5), (1350, 13/5)] ++ [(1400, 2)])) ≤ 1 ∧
      edgesDown (pinTrace2V2 V2.idleSt
        ([(1000, 13/5), (1350, 13/5)] ++ [(1400, 2)])) =
        edgesUp (pinTrace2V2 V2.idleSt
        ([(1000, 13/5), (1350, 13/5)] ++ [(1400, 2)])))) :=
  ⟨⟨by
      intro p hp
      simp only [List.mem_cons, List.not_mem_nil, or_false] at hp
      rcases hp with h | h <;> subst h <;>
        norm_num [V1.VOLTAGE_LOW_2, V1.VOLTAGE_HIGH_2],
    by norm_num [V1.VOLTAGE_LOW_2, V1.VOLTAGE_HIGH_2], rfl, rfl,
    by
      intro p hp
      simp only [List.mem_cons, List.not_mem_nil, or_false] at hp
      rcases hp with h | h <;> subst h <;>
        norm_num [V2.VOLTAGE_LOW_2, V2.VOLTAGE_HIGH_2],
    by norm_num [V2.VOLTAGE_LOW_2, V2.VOLTAGE_HIGH_2], rfl, rfl⟩,
   prev_edges_once [(1000, 12/5), (1350, 12/5)] [(1000, 13/5), (1350, 13/5)]
     1400 1400 2 2 V1.idleSt V2.idleSt
     (by
      intro p hp
      simp only [List.mem_cons, List.not_mem_nil, or_false] at hp
      rcases hp with h | h <;> subst h <;>
        norm_num [V1.VOLTAGE_LOW_2, V1.VOLTAGE_HIGH_2])
     (by norm_num [V1.VOLTAGE_LOW_2, V1.VOLTAGE_HIGH_2]) rfl rfl
     (by
      intro p hp
      simp only [List.mem_cons, List.not_mem_nil, or_false] at hp
      rcases hp with h | h <;> subst h <;>
        norm_num [V2.VOLTAGE_LOW_2, V2.VOLTAGE_HIGH_2])
     (by norm_num [V2.VOLTAGE_LOW_2, V2.VOLTAGE_HIGH_2]) rfl rfl⟩

end Mazda
